import Mathlib

/-! Configuration resolution, logger set-up and server start of `gsplit`.

A shallow embedding of `cmd/root.go` (`init`, `initConfig`) and `cmd/server.go`
(`serverCmd.Run`).  The two files are glue over three libraries (pflag/cobra,
viper, zap); the parts of those libraries the glue relies on are embedded next
to it, each with a note naming the library function it follows.  Go's case
tables above ASCII and the conversions of `spf13/cast` outside the plain
cases are parameters (`Lib`).
-/

set_option autoImplicit false

namespace Gsplit

/-! ## What is taken as given from the Go libraries -/

/-- A value of type `any` as viper hands it to `cast`: a Go string (what flags
and the environment give, and the string scalars of a config file) or
another value decoded from a config file. -/
inductive Value where
  | string (s : String)
  | int (i : Int)
  | bool (b : Bool)
  | float (bits : Nat)
  | composite
  deriving DecidableEq, Repr

/-- The parts of the Go libraries that are parameters of the embedding: the
case tables of package `unicode` above `unicode.MaxASCII`, and the conversions
of `spf13/cast` outside the cases `Lib.ToString` and `Lib.ToUint16` fix. -/
structure Lib where
  /-- Go `unicode.ToUpper` on a rune above `MaxASCII`. -/
  upperRune : Char → Char
  /-- Go `unicode.ToLower` on a rune above `MaxASCII`. -/
  lowerRune : Char → Char
  /-- Cast `ToString` on a value that is not a string. -/
  castToString : Value → String
  /-- Cast `ToUint16` on a value that is not the decimal numeral of a
  `uint16`. -/
  castToUint16 : Value → Nat

/-- Go `unicode.ToUpper`: below `MaxASCII` the letters `a`-`z` move to
`A`-`Z`, above it the case tables decide. -/
def Lib.ToUpper (lib : Lib) (c : Char) : Char :=
  if c.toNat ≤ 127 then c.toUpper else lib.upperRune c

/-- Go `unicode.ToLower`. -/
def Lib.ToLower (lib : Lib) (c : Char) : Char :=
  if c.toNat ≤ 127 then c.toLower else lib.lowerRune c

/-! ## Strings (Go `strings` helpers, rune by rune, on valid UTF-8) -/

/-- Go `strings.ToUpper`: `unicode.ToUpper` on every rune. -/
def toUpper (lib : Lib) (s : String) : String := ⟨s.data.map lib.ToUpper⟩

/-- Go `strings.ToLower`: `unicode.ToLower` on every rune. -/
def toLower (lib : Lib) (s : String) : String := ⟨s.data.map lib.ToLower⟩

/-- A `strings.Replacer` built from single-character pairs, as
`strings.NewReplacer("-", "_", ".", "_")` is: the first pair whose old
character matches decides. -/
abbrev Replacer := List (Char × Char)

/-- One character through a replacer. -/
def Replacer.replaceChar : Replacer → Char → Char
  | [], c => c
  | (old, new) :: rest, c => if c = old then new else Replacer.replaceChar rest c

/-- Go `(*strings.Replacer).Replace`. -/
def Replacer.Replace (r : Replacer) (s : String) : String :=
  ⟨s.data.map r.replaceChar⟩

/-- Split a list of characters at every occurrence of `sep`. -/
def splitChars (sep : Char) : List Char → List (List Char)
  | [] => [[]]
  | c :: cs =>
    match splitChars sep cs with
    | [] => [[c]]
    | seg :: segs => if c = sep then [] :: seg :: segs else (c :: seg) :: segs

/-- Go `strings.Split(key, ".")`. -/
def splitKey (key : String) : List String :=
  (splitChars '.' key.data).map String.mk

/-- Go `strings.Join(parts, ".")`. -/
def joinKey : List String → String
  | [] => ""
  | [p] => p
  | p :: q :: rest => p ++ "." ++ joinKey (q :: rest)

/-- The proper, non-empty prefixes of a key path, joined back with the key
delimiter: `path[0:i]` for `i = 1 .. len(path)-1`. -/
def parentKeys (path : List String) : List String :=
  (List.range (path.length - 1)).map fun i => joinKey (path.take (i + 1))

/-! ## pflag -/

/-- A `pflag.Flag` as viper reads it: `ValueType()`, `ValueString()` and
`HasChanged()`. -/
structure Flag where
  name : String
  valueType : String
  value : String
  changed : Bool
  deriving DecidableEq, Repr

/-- A flag after command-line parsing: an explicit argument replaces the
default and marks the flag as changed. -/
def parseFlag (name valueType defValue : String) (arg : Option String) : Flag :=
  match arg with
  | some a => { name := name, valueType := valueType, value := a, changed := true }
  | none => { name := name, valueType := valueType, value := defValue, changed := false }

/-- The command line, as far as the bound flags go: the arguments given
explicitly to `--log-filepath`, `--log-location` and `--port` (a `uint16`,
so given as a number). -/
structure CommandLine where
  logFilepath : Option String
  logLocation : Option String
  port : Option (Fin 65536)

/-! ## viper -/

/-- The config layer of viper after `ReadInConfig`, seen through the two
functions `find` calls on it: `searchIndexableWithPathPrefixes(v.config, path)`
(a nil result being none) and `isPathShadowedInDeepMap(path, v.config) != ""`. -/
structure ConfigMap where
  search : String → Option Value
  shadowed : String → Bool

/-- The empty config map viper starts with. -/
def ConfigMap.empty : ConfigMap := { search := fun _ => none, shadowed := fun _ => false }

/-- The fields of the viper singleton the program touches. -/
structure Viper where
  configFile : String
  configName : String
  configType : String
  configPaths : List String
  envPrefix : String
  envKeyReplacer : Option Replacer
  automaticEnvApplied : Bool
  allowEmptyEnv : Bool
  pflags : List (String × Flag)
  config : ConfigMap

/-- The viper singleton before `init` runs (`viper.New()`). -/
def Viper.new : Viper :=
  { configFile := "", configName := "config", configType := "", configPaths := [],
    envPrefix := "", envKeyReplacer := none, automaticEnvApplied := false,
    allowEmptyEnv := false, pflags := [], config := ConfigMap.empty }

/-- Viper `BindPFlag(key, flag)`: keys are stored lower-cased. -/
def Viper.BindPFlag (v : Viper) (lib : Lib) (key : String) (flag : Flag) : Viper :=
  { v with
    pflags := (toLower lib key, flag) :: v.pflags.filter fun kf => kf.1 ≠ toLower lib key }

/-- Viper `SetConfigFile`. -/
def Viper.SetConfigFile (v : Viper) (file : String) : Viper :=
  if file ≠ "" then { v with configFile := file } else v

/-- Viper `SetConfigName`. -/
def Viper.SetConfigName (v : Viper) (name : String) : Viper :=
  if name ≠ "" then { v with configName := name, configFile := "" } else v

/-- Viper `SetConfigType`. -/
def Viper.SetConfigType (v : Viper) (t : String) : Viper :=
  if t ≠ "" then { v with configType := t } else v

/-- Viper `AddConfigPath`. -/
def Viper.AddConfigPath (v : Viper) (path : String) : Viper :=
  if path ≠ "" ∧ path ∉ v.configPaths then { v with configPaths := v.configPaths ++ [path] }
  else v

/-- Viper `SetEnvPrefix`. -/
def Viper.SetEnvPrefix (v : Viper) (p : String) : Viper :=
  if p ≠ "" then { v with envPrefix := p } else v

/-- Viper `SetEnvKeyReplacer`. -/
def Viper.SetEnvKeyReplacer (v : Viper) (r : Replacer) : Viper :=
  { v with envKeyReplacer := some r }

/-- Viper `AutomaticEnv`. -/
def Viper.AutomaticEnv (v : Viper) : Viper :=
  { v with automaticEnvApplied := true }

/-- Viper `mergeWithEnvPrefix`: `strings.ToUpper(v.envPrefix + "_" + in)`. -/
def Viper.mergeWithEnvPrefix (v : Viper) (lib : Lib) (key : String) : String :=
  if v.envPrefix ≠ "" then toUpper lib (v.envPrefix ++ "_" ++ key) else toUpper lib key

/-- The name of the environment variable `getEnv` looks up for `key`: the key
replacer applied to the key it is handed. -/
def Viper.envName (v : Viper) (key : String) : String :=
  match v.envKeyReplacer with
  | some r => r.Replace key
  | none => key

/-- The process environment, `os.LookupEnv`. -/
abbrev Environ := String → Option String

/-- Viper `getEnv`: a variable that is set but empty counts as unset unless
`AllowEmptyEnv(true)` was called. -/
def Viper.getEnv (v : Viper) (environ : Environ) (key : String) : Option String :=
  match environ (v.envName key) with
  | some val => if v.allowEmptyEnv ∨ val ≠ "" then some val else none
  | none => none

/-- Viper `isPathShadowedInAutoEnv`: some proper prefix of the key has a
value in the environment. -/
def Viper.isPathShadowedInAutoEnv (v : Viper) (lib : Lib) (environ : Environ)
    (path : List String) : Bool :=
  (parentKeys path).any fun parentKey =>
    (v.getEnv environ (v.mergeWithEnvPrefix lib parentKey)).isSome

/-- Viper `isPathShadowedInFlatMap` on the bound flags: some proper prefix of
the key is itself a bound key. -/
def Viper.isPathShadowedInFlags (v : Viper) (path : List String) : Bool :=
  (parentKeys path).any fun parentKey => (v.pflags.lookup parentKey).isSome

/-- Viper `find(lcaseKey, flagDefault)`, for a program that uses no aliases,
no `Set` overrides, no `BindEnv`, no key/value store and no `SetDefault`:
changed flag, then automatic environment, then config file, then the flag's
default; a shadowed path ends the search with nil.  Flags of type `string`
and `uint16` are read through `ValueString()`, so flags and the environment
give strings; the config file gives the value it holds. -/
def Viper.find (v : Viper) (lib : Lib) (environ : Environ) (lcaseKey : String)
    (flagDefault : Bool) : Option Value :=
  let path := splitKey lcaseKey
  let nested := decide (1 < path.length)
  let flag := v.pflags.lookup lcaseKey
  match flag.filter fun f => f.changed with
  | some f => some (.string f.value)
  | none =>
    if nested ∧ v.isPathShadowedInFlags path then none
    else
      match (if v.automaticEnvApplied then
               v.getEnv environ (v.mergeWithEnvPrefix lib lcaseKey)
             else none) with
      | some val => some (.string val)
      | none =>
        if v.automaticEnvApplied ∧ nested ∧ v.isPathShadowedInAutoEnv lib environ path then none
        else
          match v.config.search lcaseKey with
          | some val => some val
          | none =>
            if nested ∧ v.config.shadowed lcaseKey then none
            else if flagDefault then flag.map fun f => Value.string f.value
            else none

/-- Viper `Get`. -/
def Viper.Get (v : Viper) (lib : Lib) (environ : Environ) (key : String) : Option Value :=
  v.find lib environ (toLower lib key) true

/-- Cast `ToString` on what `Get` returns: `""` for nil, a string as it is
(`case string: return s`), any other value as the parameter has it. -/
def Lib.ToString (lib : Lib) : Option Value → String
  | none => ""
  | some (.string s) => s
  | some val => lib.castToString val

/-- Viper `GetString`: `cast.ToString(v.Get(key))`. -/
def Viper.GetString (v : Viper) (lib : Lib) (environ : Environ) (key : String) : String :=
  lib.ToString (v.Get lib environ key)

/-- The value of a string of decimal digits, none for anything else. -/
def parseDecimal (s : String) : Option Nat :=
  if s.data ≠ [] ∧ s.data.all Char.isDigit then
    some (s.data.foldl (fun n c => 10 * n + (c.toNat - '0'.toNat)) 0)
  else none

/-- Cast `ToUint16` on what `Get` returns: 0 for nil, and the number itself
for the decimal numeral of a `uint16` (digits only, no leading zero, below
`2 ^ 16`); every other value, other strings included, as the parameter has
it. -/
def Lib.ToUint16 (lib : Lib) : Option Value → Nat
  | none => 0
  | some (.string s) =>
    match parseDecimal s with
    | some n => if n < 2 ^ 16 ∧ toString n = s then n else lib.castToUint16 (.string s)
    | none => lib.castToUint16 (.string s)
  | some val => lib.castToUint16 val

/-- Viper `GetUint16`: `cast.ToUint16(v.Get(key))`. -/
def Viper.GetUint16 (v : Viper) (lib : Lib) (environ : Environ) (key : String) : Nat :=
  lib.ToUint16 (v.Get lib environ key)

/-- Viper `ConfigFileNotFoundError` against every other error `ReadInConfig`
can return (`*fs.PathError`, `UnsupportedConfigError`, `ConfigParseError`). -/
inductive ReadError where
  | ConfigFileNotFoundError (name : String) (locations : List String)
  | other (msg : String)
  deriving DecidableEq, Repr

/-- The type assertion `err.(viper.ConfigFileNotFoundError)`. -/
def ReadError.isConfigFileNotFound : ReadError → Bool
  | .ConfigFileNotFoundError _ _ => true
  | .other _ => false

/-- The `Error()` text (quoting of `%q` written without escapes). -/
def ReadError.Error : ReadError → String
  | .ConfigFileNotFoundError name locations =>
    "Config File \"" ++ name ++ "\" Not Found in \"[" ++ " ".intercalate locations ++ "]\""
  | .other msg => msg

/-- The file system as `ReadInConfig` uses it. -/
structure FileSystem where
  /-- Viper `findConfigFile`: the first file called `name` with a supported
  extension under one of `paths`, if there is one. -/
  search : (paths : List String) → (name : String) → Option String
  /-- Reading `file` and unmarshalling it as `configType` (by its extension
  when `configType` is empty): the error text of the first step that fails
  (type not supported, `afero.ReadFile`, the decoder), or the decoded map. -/
  load : (file : String) → (configType : String) → Except String ConfigMap

/-- Viper `getConfigFile`: the explicit file when one was set, the result of
the search otherwise; only the search reports `ConfigFileNotFoundError`. -/
def Viper.getConfigFile (v : Viper) (fs : FileSystem) : Except ReadError String :=
  if v.configFile ≠ "" then .ok v.configFile
  else
    match fs.search v.configPaths v.configName with
    | some file => .ok file
    | none => .error (.ConfigFileNotFoundError v.configName v.configPaths)

/-- Viper `ReadInConfig`: on success the config layer is replaced and the
found file remembered; on error the config layer stays as it was (the file
name `getConfigFile` caches before a failed load is dropped here, nothing
reads it afterwards). -/
def Viper.ReadInConfig (v : Viper) (fs : FileSystem) : Except ReadError Viper :=
  match v.getConfigFile fs with
  | .error e => .error e
  | .ok file =>
    match fs.load file v.configType with
    | .error msg => .error (.other msg)
    | .ok config => .ok { v with configFile := file, config := config }

/-! ## zap -/

/-- The levels of `zapcore.Level`. -/
inductive Level where
  | Debug | Info | Warn | Error | DPanic | Panic | Fatal
  deriving DecidableEq, Repr

/-- The fields of `zap.Config` that `initConfig` and the claims look at. -/
structure ZapConfig where
  level : Level
  development : Bool
  encoding : String
  outputPaths : List String
  errorOutputPaths : List String
  deriving DecidableEq, Repr

/-- Zap `NewDevelopmentConfig()`. -/
def NewDevelopmentConfig : ZapConfig :=
  { level := .Debug, development := true, encoding := "console",
    outputPaths := ["stderr"], errorOutputPaths := ["stderr"] }

/-- Zap `NewProductionConfig()`. -/
def NewProductionConfig : ZapConfig :=
  { level := .Info, development := false, encoding := "json",
    outputPaths := ["stderr"], errorOutputPaths := ["stderr"] }

/-- Zap `zapConfig.Level.SetLevel(l)`. -/
def ZapConfig.SetLevel (c : ZapConfig) (l : Level) : ZapConfig := { c with level := l }

/-- A logger, known by the configuration it was built from. -/
structure Logger where
  config : ZapConfig
  deriving DecidableEq, Repr

/-! ## cmd/root.go -/

/-- Everything `init` and `initConfig` read: the parsed command line, the
package variables `configFile` (the value of `--config`) and `debug` (which
no flag of these files sets), the process environment, the file system, for
each configuration the error of `zapConfig.Build()` (none when the logger is
built), and the library parameters. -/
structure Process where
  lib : Lib
  args : CommandLine
  configFile : String
  debug : String
  environ : Environ
  fs : FileSystem
  buildError : ZapConfig → Option String

/-- The `flags` map of `init` (root.go:41-46), each flag in the state the
command line left it in: registered at root.go:36-39 with its default, and
changed when the argument was given. -/
def flags (args : CommandLine) : List (String × Flag) :=
  [ ("log.filepath", parseFlag "log-filepath" "string" "" args.logFilepath),
    ("log.location", parseFlag "log-location" "string" "stderr" args.logLocation),
    ("server.port", parseFlag "port" "uint16" "5431" (args.port.map fun n => toString n.val)) ]

/-- The viper state `init` leaves (root.go:47-52): every entry of `flags`
bound.  The three flags exist, so `BindPFlag` returns no error. -/
def init (lib : Lib) (args : CommandLine) : Viper :=
  (flags args).foldl (fun v kf => v.BindPFlag lib kf.1 kf.2) Viper.new

/-- How a run of `initConfig` ends: in `os.Exit(code)`, or by reaching
`zap.ReplaceGlobals(logger)` with the logger `Build` returned (none for the
nil pointer it returns next to an error). -/
inductive Outcome where
  | exit (code : Nat)
  | replaceGlobals (logger : Option Logger)
  deriving DecidableEq, Repr

/-- What a run of `initConfig` leaves behind. -/
structure Result where
  /-- Lines written to `os.Stderr`. -/
  stderr : List String
  /-- The package variable `zapConfig`, none while it is still unassigned. -/
  zapConfig : Option ZapConfig
  /-- Whether `zapConfig.Build()` was called. -/
  built : Bool
  /-- The viper singleton. -/
  viper : Viper
  outcome : Outcome

/-- Lines 56-68 of `initConfig`: where to look for the config file and how to
read the environment. -/
def configure (p : Process) : Viper :=
  let v := init p.lib p.args
  let v :=
    if p.configFile ≠ "" then v.SetConfigFile p.configFile
    else ((v.SetConfigName "gosplitsies").SetConfigType "yaml").AddConfigPath "/etc"
  ((v.SetEnvPrefix "gsplit").SetEnvKeyReplacer [('-', '_'), ('.', '_')]).AutomaticEnv

/-- Lines 103-110 of `initConfig`: the logger is built from `zapConfig`, a
failure is reported on stderr, and the result of `Build` goes to
`zap.ReplaceGlobals` either way.  The deferred `logger.Sync()` is left out. -/
def buildAndInstall (p : Process) (v : Viper) (zapConfig : ZapConfig) : Result :=
  match p.buildError zapConfig with
  | some _ =>
    { stderr := ["failed to initialize logger\n"], zapConfig := some zapConfig, built := true,
      viper := v, outcome := .replaceGlobals none }
  | none =>
    { stderr := [], zapConfig := some zapConfig, built := true,
      viper := v, outcome := .replaceGlobals (some { config := zapConfig }) }

/-- Lines 77-111 of `initConfig`: the logger configuration from `debug`, the
destination from the resolved `log.location` and `log.filepath`, then the
build and the installation of the logger. -/
def setupLogger (p : Process) (v : Viper) : Result :=
  let zapConfig :=
    if p.debug = "true" then NewDevelopmentConfig.SetLevel .Debug
    else NewProductionConfig.SetLevel .Info
  let logLocation := v.GetString p.lib p.environ "log.location"
  if logLocation = "file" then
    let logFilepath := v.GetString p.lib p.environ "log.filepath"
    if logFilepath = "" then
      { stderr := ["no log filepath provided\n"], zapConfig := some zapConfig, built := false,
        viper := v, outcome := .exit 1 }
    else buildAndInstall p v { zapConfig with outputPaths := [logFilepath] }
  else if logLocation = "stdout" then
    buildAndInstall p v { zapConfig with outputPaths := ["stdout"] }
  else if logLocation = "stderr" then buildAndInstall p v zapConfig
  else if logLocation = "syslog" then buildAndInstall p v zapConfig
  else buildAndInstall p v zapConfig

/-- The function `initConfig` (root.go:55-111). -/
def initConfig (p : Process) : Result :=
  let v := configure p
  match v.ReadInConfig p.fs with
  | .error err =>
    if ¬ err.isConfigFileNotFound ∧ p.configFile ≠ "" then
      { stderr := ["failed to read in config: " ++ err.Error ++ "\n"], zapConfig := none,
        built := false, viper := v, outcome := .exit 1 }
    else setupLogger p v
  | .ok v => setupLogger p v

/-! ## cmd/server.go -/

/-- The package variable `serverPort` (server.go:19): declared, bound to no
flag and assigned nowhere, so it keeps the zero value. -/
def serverPort : Nat := 0

/-- What `serverCmd.Run` does: the address handed to `http.ListenAndServe`,
the records sent to the global sugared logger, and the exit code if the
process exits. -/
structure ServerRun where
  listenAddr : String
  log : List (Level × String)
  exit : Option Nat
  deriving DecidableEq, Repr

/-- The `Run` function of `serverCmd` (server.go:24-35).  `listenError` is the
error `http.ListenAndServe` returns, none while it keeps serving;
`zap.S().Fatalf` writes its record and exits with code 1. -/
def serverRun (v : Viper) (lib : Lib) (environ : Environ) (listenError : Option String) :
    ServerRun :=
  let port := v.GetUint16 lib environ "server.port"
  let started := [(Level.Info, "Starting server on port " ++ toString port)]
  let addr := ":" ++ toString port
  match listenError with
  | none => { listenAddr := addr, log := started, exit := none }
  | some err =>
    { listenAddr := addr,
      log := started ++
        [(Level.Fatal, "failed to start the server on port " ++ toString serverPort ++ ": " ++ err)],
      exit := some 1 }

/-! ## Vocabulary of the statements -/

/-- Whether the read step of `initConfig` (root.go:70-75) ends the run: the
condition of line 71 on the error of line 70. -/
def readFatal (p : Process) : Bool :=
  match (configure p).ReadInConfig p.fs with
  | .error err => !err.isConfigFileNotFound && p.configFile != ""
  | .ok _ => false

/-- The bound flags in the order `init` leaves them in `v.pflags`. -/
def boundFlags (args : CommandLine) : List (String × Flag) :=
  [ ("server.port", parseFlag "port" "uint16" "5431" (args.port.map fun n => toString n.val)),
    ("log.location", parseFlag "log-location" "string" "stderr" args.logLocation),
    ("log.filepath", parseFlag "log-filepath" "string" "" args.logFilepath) ]

/-- The settings every viper state of a run shares from `configure` on. -/
structure Configured (args : CommandLine) (v : Viper) : Prop where
  envPrefix : v.envPrefix = "gsplit"
  envKeyReplacer : v.envKeyReplacer = some [('-', '_'), ('.', '_')]
  automaticEnvApplied : v.automaticEnvApplied = true
  allowEmptyEnv : v.allowEmptyEnv = false
  pflags : v.pflags = boundFlags args

/-- An environment variable as viper counts it: set and not empty. -/
def nonEmpty (val : Option String) : Option String := val.filter fun s => s ≠ ""

/-- The layers of `find` below the flag and the key's own environment
variable: nil when the parent key has a value in the environment, else the
config file's value, else nil when the config file shadows the key, else the
flag default. -/
def lowerLayers (c : ConfigMap) (key dflt : String) (parentEnv : Option String) : Option Value :=
  if (nonEmpty parentEnv).isSome then none
  else
    match c.search key with
    | some val => some val
    | none => if c.shadowed key then none else some (.string dflt)

/-- The layered-precedence law in the words of the specification: the value
of the highest layer that sets the key, flags over environment over config
file over default. -/
def layered {α : Type} (flag env file : Option α) (dflt : α) : α :=
  match flag with
  | some a => a
  | none =>
    match env with
    | some e => e
    | none =>
      match file with
      | some c => c
      | none => dflt

/-- The config file of a run in the words of the specification, read
straight from the file system: the file at the explicit path when one is
given, else the file `gosplitsies` found under `/etc` and read as YAML; the
empty map when there is no such file or it cannot be read or parsed. -/
def configFileOf (p : Process) : ConfigMap :=
  if p.configFile ≠ "" then
    match p.fs.load p.configFile "" with
    | .ok c => c
    | .error _ => ConfigMap.empty
  else
    match p.fs.search ["/etc"] "gosplitsies" with
    | some file =>
      match p.fs.load file "yaml" with
      | .ok c => c
      | .error _ => ConfigMap.empty
    | none => ConfigMap.empty

/-- The value of a string key when there is no config file, in the words of
the specification: flag, else non-empty environment variable, else the
default; viper's nil, read as `""`, when the variable of the parent key has
a value. -/
def withoutFile (flag env parentEnv : Option String) (dflt : String) : String :=
  match flag with
  | some a => a
  | none =>
    match nonEmpty env with
    | some e => e
    | none => if (nonEmpty parentEnv).isSome then "" else dflt

/-- The output paths of a destination: the file path for `"file"`, standard
output for `"stdout"`, and the default of zap, standard error, otherwise. -/
def sinkPaths (location filepath : String) : List String :=
  if location = "file" then [filepath]
  else if location = "stdout" then ["stdout"]
  else ["stderr"]

/-! ## Concrete runs -/

/-- The library parameters of the concrete runs: Go's case mappings at the
code points the runs use (U+00E9 and U+00C9, the letter e with acute, map to
each other; the Kelvin sign U+212A has lower case `k` and no upper case of
its own), the identity elsewhere; and casts that send every value left to
them to the zero value. -/
def sampleLib : Lib :=
  { upperRune := fun c => if c = '\u00e9' then '\u00c9' else c,
    lowerRune := fun c =>
      if c = '\u00c9' then '\u00e9' else if c = '\u212a' then 'k' else c,
    castToString := fun _ => "",
    castToUint16 := fun _ => 0 }

/-- A command line that gives none of the bound flags. -/
def noArgs : CommandLine := { logFilepath := none, logLocation := none, port := none }

/-- A file system without any config file. -/
def noFiles : FileSystem :=
  { search := fun _ _ => none,
    load := fun file _ => .error ("open " ++ file ++ ": no such file or directory") }

/-- A file system whose default location holds a config file with the given
string entries. -/
def defaultFile (entries : List (String × String)) : FileSystem :=
  { search := fun _ _ => some "/etc/gosplitsies.yaml",
    load := fun _ _ =>
      .ok { search := fun key => (entries.lookup key).map Value.string,
            shadowed := fun _ => false } }

/-- The run `gsplit server` with nothing configured. -/
def plainRun : Process :=
  { lib := sampleLib, args := noArgs, configFile := "", debug := "", environ := fun _ => none,
    fs := noFiles, buildError := fun _ => none }

/-- The run `GSPLIT_LOG_LOCATION= GSPLIT_SERVER=1 gsplit server` with
`log.location: stdout` in `/etc/gosplitsies.yaml`. -/
def shadowedRun : Process :=
  { plainRun with
    environ := fun name =>
      if name = "GSPLIT_LOG_LOCATION" then some ""
      else if name = "GSPLIT_SERVER" then some "1"
      else none,
    fs := defaultFile [("log.location", "stdout")] }

/-- The run `GSPLIT_LOG_FILEPATH=/var/log/gsplit.log GSPLIT_LOG_LOCATION=stdout
GSPLIT_SERVER=1 gsplit --log-location file server` with
`log.filepath: /tmp/gsplit.log` in `/etc/gosplitsies.yaml`. -/
def layeredRun : Process :=
  { plainRun with
    args := { noArgs with logLocation := some "file" },
    environ := fun name =>
      if name = "GSPLIT_LOG_FILEPATH" then some "/var/log/gsplit.log"
      else if name = "GSPLIT_LOG_LOCATION" then some "stdout"
      else if name = "GSPLIT_SERVER" then some "1"
      else none,
    fs := defaultFile [("log.filepath", "/tmp/gsplit.log")] }

/-- The run `gsplit --config /srv/gsplit.yaml server` with `log.location:
stdout` and `server.port: 8080` in `/srv/gsplit.yaml`. -/
def explicitFileRun : Process :=
  { plainRun with
    configFile := "/srv/gsplit.yaml",
    fs :=
      { search := fun _ _ => none,
        load := fun file _ =>
          if file = "/srv/gsplit.yaml" then
            .ok { search := fun key =>
                    ([("log.location", "stdout"), ("server.port", "8080")].lookup key).map
                      Value.string,
                  shadowed := fun _ => false }
          else .error ("open " ++ file ++ ": no such file or directory") } }

/-- The run `GSPLIT_LOG_LOCATION=stdout gsplit --log-filepath /tmp/gsplit.log
server` with `debug` set and no config file. -/
def envOnlyRun : Process :=
  { plainRun with
    args := { noArgs with logFilepath := some "/tmp/gsplit.log" },
    debug := "true",
    environ := fun name => if name = "GSPLIT_LOG_LOCATION" then some "stdout" else none }

/-- The run `GSPLIT_SERVER_PORT=8081 gsplit server --port 9000`. -/
def portFlagRun : Process :=
  { plainRun with
    args := { noArgs with port := some 9000 },
    environ := fun name => if name = "GSPLIT_SERVER_PORT" then some "8081" else none }

/-- The run `gsplit --config /home/gsplit/missing.yaml server`, the file not
existing. -/
def missingExplicitRun : Process :=
  { plainRun with configFile := "/home/gsplit/missing.yaml" }

/-- The run `gsplit --log-location file server`, no file path given anywhere. -/
def fileNoPathRun : Process :=
  { plainRun with args := { noArgs with logLocation := some "file" } }

/-- The run `gsplit --log-location stdout server` with `debug` set. -/
def stdoutDebugRun : Process :=
  { plainRun with args := { noArgs with logLocation := some "stdout" }, debug := "true" }

/-- The run `gsplit --log-location syslog server`. -/
def syslogRun : Process :=
  { plainRun with args := { noArgs with logLocation := some "syslog" } }

/-- The run `gsplit --log-location file --log-filepath /nonexistent/gsplit.log
server`: zap cannot open the sink, so `Build` returns an error. -/
def buildFailsRun : Process :=
  { plainRun with
    args := { noArgs with logLocation := some "file",
                          logFilepath := some "/nonexistent/gsplit.log" },
    buildError := fun c =>
      if c.outputPaths = ["/nonexistent/gsplit.log"] then
        some "couldn't open sink \"/nonexistent/gsplit.log\": no such file or directory"
      else none }

/-! ## Characters and strings -/

theorem toNat_ofNat_small (m : Nat) (h : m < 55296) : (Char.ofNat m).toNat = m := by
  have hv : m.isValidChar := Or.inl h
  unfold Char.ofNat
  rw [dif_pos hv]
  simp [Char.ofNatAux, Char.toNat, UInt32.toNat]

theorem char_toLower_ascii (c : Char) (h : c.toNat ≤ 127) : c.toLower.toNat ≤ 127 := by
  unfold Char.toLower
  by_cases hc : c.toNat ≥ 65 ∧ c.toNat ≤ 90
  · simp only [hc, and_self, if_true]
    rw [toNat_ofNat_small _ (by omega)]
    omega
  · simp only [hc, if_false]
    exact h

theorem char_toUpper_toLower (c : Char) : (c.toLower).toUpper = c.toUpper := by
  unfold Char.toLower
  by_cases h : c.toNat ≥ 65 ∧ c.toNat ≤ 90
  · simp only [h, and_self, if_true]
    unfold Char.toUpper
    have h1 : (Char.ofNat (c.toNat + 32)).toNat = c.toNat + 32 := toNat_ofNat_small _ (by omega)
    simp only [h1]
    have h2 : c.toNat + 32 ≥ 97 ∧ c.toNat + 32 ≤ 122 := by omega
    have h3 : ¬ (c.toNat ≥ 97 ∧ c.toNat ≤ 122) := by omega
    simp only [h2, h3, and_self, if_true, if_false, Nat.add_sub_cancel, Char.ofNat_toNat]
  · simp only [h, if_false]

theorem char_toUpper_eq_iff (c d : Char) (hd : d.toNat < 65) : c.toUpper = d ↔ c = d := by
  unfold Char.toUpper
  by_cases h : c.toNat ≥ 97 ∧ c.toNat ≤ 122
  · simp only [h, and_self, if_true]
    constructor
    · intro e
      have h1 : (Char.ofNat (c.toNat - 32)).toNat = c.toNat - 32 := toNat_ofNat_small _ (by omega)
      rw [e] at h1
      omega
    · intro e
      rw [e] at h
      omega
  · simp only [h, if_false]

theorem ToUpper_ascii (lib : Lib) (c : Char) (hc : c.toNat ≤ 127) : lib.ToUpper c = c.toUpper := by
  simp [Lib.ToUpper, hc]

theorem ToLower_ascii (lib : Lib) (c : Char) (hc : c.toNat ≤ 127) : lib.ToLower c = c.toLower := by
  simp [Lib.ToLower, hc]

/-- On an ASCII character, the replacer of `initConfig` after upper-casing
the lower-cased character is upper-casing after replacing `-` and `.` by
`_`. -/
theorem replaceChar_upper_lower (lib : Lib) (c : Char) (hc : c.toNat ≤ 127) :
    Replacer.replaceChar [('-', '_'), ('.', '_')] (lib.ToUpper (lib.ToLower c))
      = lib.ToUpper (if c = '-' ∨ c = '.' then '_' else c) := by
  have hr : (if c = '-' ∨ c = '.' then '_' else c).toNat ≤ 127 := by
    split
    · decide
    · exact hc
  rw [ToLower_ascii lib c hc, ToUpper_ascii lib _ (char_toLower_ascii c hc),
    ToUpper_ascii lib _ hr, char_toUpper_toLower]
  by_cases h1 : c = '-'
  · subst h1; decide
  · by_cases h2 : c = '.'
    · subst h2; decide
    · have e1 : ¬ c.toUpper = '-' := by
        rw [char_toUpper_eq_iff c '-' (by decide)]; exact h1
      have e2 : ¬ c.toUpper = '.' := by
        rw [char_toUpper_eq_iff c '.' (by decide)]; exact h2
      simp [Replacer.replaceChar, h1, h2, e1, e2]

/-- The replacer of `initConfig` leaves no `-` and no `.` behind. -/
theorem replaceChar_ne (c : Char) :
    Replacer.replaceChar [('-', '_'), ('.', '_')] c ≠ '-'
    ∧ Replacer.replaceChar [('-', '_'), ('.', '_')] c ≠ '.' := by
  by_cases h1 : c = '-'
  · subst h1; decide
  · by_cases h2 : c = '.'
    · subst h2; decide
    · simp [Replacer.replaceChar, h1, h2]

theorem toUpper_append (lib : Lib) (a b : String) :
    toUpper lib (a ++ b) = toUpper lib a ++ toUpper lib b := by
  apply String.ext
  simp [toUpper, String.data_append]

theorem Replace_append (r : Replacer) (a b : String) :
    r.Replace (a ++ b) = r.Replace a ++ r.Replace b := by
  apply String.ext
  simp [Replacer.Replace, String.data_append]

/-! ## Decimal numerals -/

theorem digitChar_value : ∀ m, m < 10 → (Nat.digitChar m).toNat - '0'.toNat = m := by decide

theorem digitChar_isDigit : ∀ m, m < 10 → (Nat.digitChar m).isDigit = true := by decide

theorem toDigitsCore_value (fuel : Nat) : ∀ (n : Nat) (ds : List Char), n < fuel →
    (Nat.toDigitsCore 10 fuel n ds).foldl (fun a c => 10 * a + (c.toNat - '0'.toNat)) 0
      = ds.foldl (fun a c => 10 * a + (c.toNat - '0'.toNat)) n := by
  induction fuel with
  | zero => intro n ds h; omega
  | succ fuel ih =>
    intro n ds h
    unfold Nat.toDigitsCore
    simp only
    have hd := digitChar_value (n % 10) (Nat.mod_lt _ (by decide))
    split
    · rename_i h0
      simp only [List.foldl_cons, hd]
      congr 1
      omega
    · rename_i h0
      rw [ih (n / 10) _ (by omega)]
      simp only [List.foldl_cons, hd]
      congr 1
      omega

theorem toDigitsCore_digits (fuel : Nat) : ∀ (n : Nat) (ds : List Char),
    ds.all Char.isDigit = true → (Nat.toDigitsCore 10 fuel n ds).all Char.isDigit = true := by
  induction fuel with
  | zero => intro n ds h; simpa [Nat.toDigitsCore] using h
  | succ fuel ih =>
    intro n ds h
    unfold Nat.toDigitsCore
    simp only
    have hd := digitChar_isDigit (n % 10) (Nat.mod_lt _ (by decide))
    split
    · simp only [List.all_cons, hd, h, Bool.and_self]
    · apply ih
      simp only [List.all_cons, hd, h, Bool.and_self]

theorem toDigitsCore_ne_nil (fuel n : Nat) (ds : List Char) (h : 0 < fuel) :
    Nat.toDigitsCore 10 fuel n ds ≠ [] := by
  induction fuel generalizing n ds with
  | zero => omega
  | succ fuel ih =>
    unfold Nat.toDigitsCore
    simp only
    split
    · simp
    · cases fuel with
      | zero => simp [Nat.toDigitsCore]
      | succ f => exact ih _ _ (by omega)

theorem parseDecimal_toString (n : Nat) : parseDecimal (toString n) = some n := by
  have hdata : (toString n).data = Nat.toDigitsCore 10 (n + 1) n [] := rfl
  unfold parseDecimal
  rw [hdata, toDigitsCore_value (n + 1) n [] (by omega)]
  have h1 := toDigitsCore_ne_nil (n + 1) n [] (by omega)
  have h2 := toDigitsCore_digits (n + 1) n [] rfl
  simp [h1, h2]

/-- The cast of the decimal numeral of a `uint16` is the number. -/
theorem ToUint16_toString (lib : Lib) (n : Fin 65536) :
    lib.ToUint16 (some (.string (toString n.val))) = n.val := by
  have h : n.val < 2 ^ 16 := n.isLt
  simp only [Lib.ToUint16, parseDecimal_toString, h, and_self, if_true]

/-! ## The viper state `initConfig` works with -/

theorem init_eq (lib : Lib) (args : CommandLine) :
    init lib args = { Viper.new with pflags := boundFlags args } := by
  have h1 : toLower lib "log.filepath" = "log.filepath" := rfl
  have h2 : toLower lib "log.location" = "log.location" := rfl
  have h3 : toLower lib "server.port" = "server.port" := rfl
  simp [init, flags, Viper.BindPFlag, Viper.new, boundFlags, h1, h2, h3]

theorem configure_eq (p : Process) :
    configure p =
      { configFile := p.configFile,
        configName := if p.configFile ≠ "" then "config" else "gosplitsies",
        configType := if p.configFile ≠ "" then "" else "yaml",
        configPaths := if p.configFile ≠ "" then [] else ["/etc"],
        envPrefix := "gsplit",
        envKeyReplacer := some [('-', '_'), ('.', '_')],
        automaticEnvApplied := true,
        allowEmptyEnv := false,
        pflags := boundFlags p.args,
        config := ConfigMap.empty } := by
  unfold configure
  rw [init_eq]
  by_cases h : p.configFile = ""
  · simp [h, Viper.SetEnvPrefix, Viper.SetEnvKeyReplacer, Viper.AutomaticEnv,
      Viper.SetConfigFile, Viper.SetConfigName, Viper.SetConfigType, Viper.AddConfigPath, Viper.new]
  · simp [h, Viper.SetEnvPrefix, Viper.SetEnvKeyReplacer, Viper.AutomaticEnv,
      Viper.SetConfigFile, Viper.SetConfigName, Viper.SetConfigType, Viper.AddConfigPath, Viper.new]

theorem configure_configured (p : Process) : Configured p.args (configure p) := by
  rw [configure_eq]
  exact ⟨rfl, rfl, rfl, rfl, rfl⟩

/-- Reading the config file changes the file name and the config layer only. -/
theorem ReadInConfig_configured (args : CommandLine) (v w : Viper) (fs : FileSystem)
    (hv : Configured args v) (h : v.ReadInConfig fs = .ok w) : Configured args w := by
  unfold Viper.ReadInConfig at h
  split at h
  · cases h
  · split at h
    · cases h
    · cases h
      exact ⟨hv.envPrefix, hv.envKeyReplacer, hv.automaticEnvApplied, hv.allowEmptyEnv, hv.pflags⟩

theorem setupLogger_viper (p : Process) (v : Viper) : (setupLogger p v).viper = v := by
  unfold setupLogger buildAndInstall
  simp only
  repeat' split
  all_goals rfl

theorem initConfig_configured (p : Process) : Configured p.args (initConfig p).viper := by
  unfold initConfig
  simp only
  split
  · split
    · exact configure_configured p
    · rw [setupLogger_viper]; exact configure_configured p
  · rename_i w h
    rw [setupLogger_viper]
    exact ReadInConfig_configured p.args _ w p.fs (configure_configured p) h

/-- The config layer of the viper state a run ends with is the config file
the file system holds for the run. -/
theorem initConfig_config (p : Process) : (initConfig p).viper.config = configFileOf p := by
  unfold initConfig
  simp only
  rw [configure_eq]
  unfold configFileOf
  by_cases h : p.configFile = ""
  · simp only [Viper.ReadInConfig, Viper.getConfigFile, h, ne_eq, not_true_eq_false, if_false]
    cases hs : p.fs.search ["/etc"] "gosplitsies" with
    | none => simp [setupLogger_viper, ReadError.isConfigFileNotFound]
    | some file =>
      cases hl : p.fs.load file "yaml" with
      | error msg => simp [hl, setupLogger_viper]
      | ok c => simp [hl, setupLogger_viper]
  · simp only [Viper.ReadInConfig, Viper.getConfigFile, h, ne_eq, not_false_eq_true, if_true]
    cases hl : p.fs.load p.configFile "" with
    | error msg => simp [hl, ReadError.isConfigFileNotFound]
    | ok c => simp [hl, setupLogger_viper]

/-- With an explicit config file, `ReadInConfig` never reports
`ConfigFileNotFoundError`: that error comes from the search only. -/
theorem explicit_not_ConfigFileNotFound (p : Process) (e : ReadError) (h : p.configFile ≠ "")
    (herr : (configure p).ReadInConfig p.fs = .error e) : e.isConfigFileNotFound = false := by
  rw [configure_eq] at herr
  simp only [Viper.ReadInConfig, Viper.getConfigFile, h, ne_eq, not_false_eq_true, if_true] at herr
  split at herr
  · cases herr; rfl
  · cases herr

/-! ## The lookup of the three bound keys -/

theorem find_logLocation (args : CommandLine) (v : Viper) (lib : Lib) (environ : Environ)
    (hv : Configured args v) :
    v.find lib environ "log.location" true =
      match args.logLocation with
      | some a => some (.string a)
      | none =>
        match nonEmpty (environ "GSPLIT_LOG_LOCATION") with
        | some e => some (.string e)
        | none => lowerLayers v.config "log.location" "stderr" (environ "GSPLIT_LOG") := by
  have hs : splitKey "log.location" = ["log", "location"] := by decide
  have hp : parentKeys ["log", "location"] = ["log"] := by decide
  have hn : Replacer.Replace [('-', '_'), ('.', '_')] (toUpper lib "gsplit_log.location")
      = "GSPLIT_LOG_LOCATION" := rfl
  have hq : Replacer.Replace [('-', '_'), ('.', '_')] (toUpper lib "gsplit_log")
      = "GSPLIT_LOG" := rfl
  unfold Viper.find
  simp only [hs, hp, Viper.isPathShadowedInFlags, Viper.isPathShadowedInAutoEnv, Viper.getEnv,
    Viper.envName, Viper.mergeWithEnvPrefix, hv.envPrefix, hv.envKeyReplacer,
    hv.automaticEnvApplied, hv.allowEmptyEnv, hv.pflags, boundFlags, lowerLayers, nonEmpty]
  cases args.logLocation <;> cases h1 : environ "GSPLIT_LOG_LOCATION" <;>
    cases h2 : environ "GSPLIT_LOG" <;>
    simp [parseFlag, List.lookup, Option.filter, hn, hq, h1, h2]

theorem find_logFilepath (args : CommandLine) (v : Viper) (lib : Lib) (environ : Environ)
    (hv : Configured args v) :
    v.find lib environ "log.filepath" true =
      match args.logFilepath with
      | some a => some (.string a)
      | none =>
        match nonEmpty (environ "GSPLIT_LOG_FILEPATH") with
        | some e => some (.string e)
        | none => lowerLayers v.config "log.filepath" "" (environ "GSPLIT_LOG") := by
  have hs : splitKey "log.filepath" = ["log", "filepath"] := by decide
  have hp : parentKeys ["log", "filepath"] = ["log"] := by decide
  have hn : Replacer.Replace [('-', '_'), ('.', '_')] (toUpper lib "gsplit_log.filepath")
      = "GSPLIT_LOG_FILEPATH" := rfl
  have hq : Replacer.Replace [('-', '_'), ('.', '_')] (toUpper lib "gsplit_log")
      = "GSPLIT_LOG" := rfl
  unfold Viper.find
  simp only [hs, hp, Viper.isPathShadowedInFlags, Viper.isPathShadowedInAutoEnv, Viper.getEnv,
    Viper.envName, Viper.mergeWithEnvPrefix, hv.envPrefix, hv.envKeyReplacer,
    hv.automaticEnvApplied, hv.allowEmptyEnv, hv.pflags, boundFlags, lowerLayers, nonEmpty]
  cases args.logFilepath <;> cases h1 : environ "GSPLIT_LOG_FILEPATH" <;>
    cases h2 : environ "GSPLIT_LOG" <;>
    simp [parseFlag, List.lookup, Option.filter, hn, hq, h1, h2]

theorem find_serverPort (args : CommandLine) (v : Viper) (lib : Lib) (environ : Environ)
    (hv : Configured args v) :
    v.find lib environ "server.port" true =
      match args.port with
      | some n => some (.string (toString n.val))
      | none =>
        match nonEmpty (environ "GSPLIT_SERVER_PORT") with
        | some e => some (.string e)
        | none => lowerLayers v.config "server.port" "5431" (environ "GSPLIT_SERVER") := by
  have hs : splitKey "server.port" = ["server", "port"] := by decide
  have hp : parentKeys ["server", "port"] = ["server"] := by decide
  have hn : Replacer.Replace [('-', '_'), ('.', '_')] (toUpper lib "gsplit_server.port")
      = "GSPLIT_SERVER_PORT" := rfl
  have hq : Replacer.Replace [('-', '_'), ('.', '_')] (toUpper lib "gsplit_server")
      = "GSPLIT_SERVER" := rfl
  unfold Viper.find
  simp only [hs, hp, Viper.isPathShadowedInFlags, Viper.isPathShadowedInAutoEnv, Viper.getEnv,
    Viper.envName, Viper.mergeWithEnvPrefix, hv.envPrefix, hv.envKeyReplacer,
    hv.automaticEnvApplied, hv.allowEmptyEnv, hv.pflags, boundFlags, lowerLayers, nonEmpty]
  cases args.port <;> cases h1 : environ "GSPLIT_SERVER_PORT" <;>
    cases h2 : environ "GSPLIT_SERVER" <;>
    simp [parseFlag, List.lookup, Option.filter, hn, hq, h1, h2]

theorem Get_logLocation (p : Process) :
    (initConfig p).viper.Get p.lib p.environ "log.location" =
      match p.args.logLocation with
      | some a => some (.string a)
      | none =>
        match nonEmpty (p.environ "GSPLIT_LOG_LOCATION") with
        | some e => some (.string e)
        | none =>
          lowerLayers (configFileOf p) "log.location" "stderr" (p.environ "GSPLIT_LOG") := by
  have h : toLower p.lib "log.location" = "log.location" := rfl
  rw [Viper.Get, h, find_logLocation p.args _ _ _ (initConfig_configured p), initConfig_config]

theorem Get_logFilepath (p : Process) :
    (initConfig p).viper.Get p.lib p.environ "log.filepath" =
      match p.args.logFilepath with
      | some a => some (.string a)
      | none =>
        match nonEmpty (p.environ "GSPLIT_LOG_FILEPATH") with
        | some e => some (.string e)
        | none =>
          lowerLayers (configFileOf p) "log.filepath" "" (p.environ "GSPLIT_LOG") := by
  have h : toLower p.lib "log.filepath" = "log.filepath" := rfl
  rw [Viper.Get, h, find_logFilepath p.args _ _ _ (initConfig_configured p), initConfig_config]

theorem Get_serverPort (p : Process) :
    (initConfig p).viper.Get p.lib p.environ "server.port" =
      match p.args.port with
      | some n => some (.string (toString n.val))
      | none =>
        match nonEmpty (p.environ "GSPLIT_SERVER_PORT") with
        | some e => some (.string e)
        | none =>
          lowerLayers (configFileOf p) "server.port" "5431" (p.environ "GSPLIT_SERVER") := by
  have h : toLower p.lib "server.port" = "server.port" := rfl
  rw [Viper.Get, h, find_serverPort p.args _ _ _ (initConfig_configured p), initConfig_config]

theorem lowerLayers_unshadowed (c : ConfigMap) (key dflt : String) (parentEnv : Option String)
    (hparent : nonEmpty parentEnv = none) (hfile : c.shadowed key = false) :
    lowerLayers c key dflt parentEnv = some ((c.search key).getD (.string dflt)) := by
  unfold lowerLayers
  rw [hparent, hfile]
  cases c.search key <;> simp

/-- The layered value out of the case analysis of `find`, for a key whose
lower layers, when they are reached, are not shadowed. -/
theorem layered_of_find (c : ConfigMap) (key dflt : String) (flag env parentEnv : Option String)
    (got : Option Value)
    (hgot : got =
      match flag with
      | some a => some (.string a)
      | none =>
        match nonEmpty env with
        | some e => some (.string e)
        | none => lowerLayers c key dflt parentEnv)
    (h : flag = none → nonEmpty env = none →
      nonEmpty parentEnv = none ∧ c.shadowed key = false) :
    got = some (layered (flag.map Value.string) ((nonEmpty env).map Value.string)
      (c.search key) (.string dflt)) := by
  rw [hgot]
  cases hf : flag with
  | some a => simp [layered]
  | none =>
    cases he : nonEmpty env with
    | some e => simp [layered]
    | none =>
      obtain ⟨h1, h2⟩ := h hf he
      simp only [layered, Option.map_none']
      rw [lowerLayers_unshadowed c key dflt parentEnv h1 h2]
      cases c.search key <;> rfl

/-! ## The steps of `initConfig` -/

/-- When the read step does not end the run, `initConfig` is `setupLogger` on
the viper state the run ends with. -/
theorem initConfig_of_read (p : Process) (hread : readFatal p = false) :
    initConfig p = setupLogger p (initConfig p).viper := by
  unfold readFatal at hread
  unfold initConfig
  simp only
  split
  · rename_i err herr
    rw [herr] at hread
    by_cases hcond : ¬ err.isConfigFileNotFound = true ∧ p.configFile ≠ ""
    · simp [hcond.1, hcond.2] at hread
    · rw [if_neg hcond, setupLogger_viper]
  · rw [setupLogger_viper]

/-- The branches of lines 85-101 of `initConfig`, by destination. -/
theorem setupLogger_cases (p : Process) (v : Viper) :
    let base := if p.debug = "true" then NewDevelopmentConfig.SetLevel .Debug
      else NewProductionConfig.SetLevel .Info
    let loc := v.GetString p.lib p.environ "log.location"
    let path := v.GetString p.lib p.environ "log.filepath"
    (loc = "file" → path ≠ "" →
      setupLogger p v = buildAndInstall p v { base with outputPaths := [path] })
    ∧ (loc = "stdout" → setupLogger p v = buildAndInstall p v { base with outputPaths := ["stdout"] })
    ∧ (loc ≠ "file" → loc ≠ "stdout" → setupLogger p v = buildAndInstall p v base) := by
  refine ⟨?_, ?_, ?_⟩
  · intro hloc hpath
    unfold setupLogger
    simp only [hloc, hpath, if_true, if_false]
  · intro hloc
    unfold setupLogger
    simp [hloc]
  · intro h1 h2
    unfold setupLogger
    simp only [h1, h2, if_false]
    split
    · rfl
    · split <;> rfl

theorem buildAndInstall_fields (p : Process) (v : Viper) (c : ZapConfig) :
    (buildAndInstall p v c).zapConfig = some c
    ∧ (buildAndInstall p v c).built = true
    ∧ (buildAndInstall p v c).outcome
        = .replaceGlobals (if (p.buildError c).isSome then none else some { config := c })
    ∧ (buildAndInstall p v c).stderr
        = if (p.buildError c).isSome then ["failed to initialize logger\n"] else [] := by
  unfold buildAndInstall
  cases p.buildError c <;> simp

theorem base_outputPaths (debug : String) :
    (if debug = "true" then NewDevelopmentConfig.SetLevel .Debug
      else NewProductionConfig.SetLevel .Info).outputPaths = ["stderr"] := by
  split <;> rfl

theorem base_level (debug : String) :
    (if debug = "true" then NewDevelopmentConfig.SetLevel .Debug
      else NewProductionConfig.SetLevel .Info).level
      = if debug = "true" then Level.Debug else Level.Info := by
  split <;> rfl

/-- What `setupLogger` leaves, by the resolved destination: the exit of line
90 for `"file"` without a path, else a logger configuration with the level of
`debug` and the output paths of the destination, handed to `Build`. -/
theorem setupLogger_result (p : Process) (v : Viper) :
    let loc := v.GetString p.lib p.environ "log.location"
    let path := v.GetString p.lib p.environ "log.filepath"
    (loc = "file" ∧ path = "" →
      (setupLogger p v).outcome = .exit 1
      ∧ (setupLogger p v).stderr = ["no log filepath provided\n"]
      ∧ (setupLogger p v).built = false)
    ∧ (¬ (loc = "file" ∧ path = "") →
      ∃ c, (setupLogger p v).zapConfig = some c
        ∧ c.level = (if p.debug = "true" then Level.Debug else Level.Info)
        ∧ c.outputPaths = sinkPaths loc path
        ∧ (setupLogger p v).built = true
        ∧ (setupLogger p v).outcome
            = .replaceGlobals (if (p.buildError c).isSome then none else some { config := c })
        ∧ (setupLogger p v).stderr
            = if (p.buildError c).isSome then ["failed to initialize logger\n"] else []) := by
  intro loc path
  have hc := setupLogger_cases p v
  simp only at hc
  constructor
  · rintro ⟨h1, h2⟩
    have h1' : v.GetString p.lib p.environ "log.location" = "file" := h1
    have h2' : v.GetString p.lib p.environ "log.filepath" = "" := h2
    unfold setupLogger
    simp [h1', h2']
  · intro hne
    by_cases h1 : loc = "file"
    · have h2 : path ≠ "" := fun e => hne ⟨h1, e⟩
      have e := hc.1 h1 h2
      have f := buildAndInstall_fields p v
        { (if p.debug = "true" then NewDevelopmentConfig.SetLevel .Debug
            else NewProductionConfig.SetLevel .Info) with outputPaths := [path] }
      rw [← e] at f
      exact ⟨_, f.1, base_level _, by simp [sinkPaths, h1], f.2.1, f.2.2.1, f.2.2.2⟩
    · by_cases h2 : loc = "stdout"
      · have e := hc.2.1 h2
        have f := buildAndInstall_fields p v
          { (if p.debug = "true" then NewDevelopmentConfig.SetLevel .Debug
              else NewProductionConfig.SetLevel .Info) with outputPaths := ["stdout"] }
        rw [← e] at f
        exact ⟨_, f.1, base_level _, by simp [sinkPaths, h2], f.2.1, f.2.2.1, f.2.2.2⟩
      · have e := hc.2.2 h1 h2
        have f := buildAndInstall_fields p v
          (if p.debug = "true" then NewDevelopmentConfig.SetLevel .Debug
              else NewProductionConfig.SetLevel .Info)
        rw [← e] at f
        exact ⟨_, f.1, base_level _, by simp [sinkPaths, h1, h2, base_outputPaths], f.2.1,
          f.2.2.1, f.2.2.2⟩

/-- Without a config layer the lower layers are the flag default, or nil
under a parent variable. -/
theorem lowerLayers_empty (key dflt : String) (parentEnv : Option String) :
    lowerLayers ConfigMap.empty key dflt parentEnv
      = if (nonEmpty parentEnv).isSome then none else some (.string dflt) := by
  unfold lowerLayers
  split <;> rfl

/-! ## Claims -/

/-- C1, as the code has it: for each of the bound keys `log.filepath`,
`log.location` and `server.port`, each on its own, the resolved value is the
one of the explicitly given flag if there is one, else the one of the
`GSPLIT_` environment variable if that is set to a non-empty value, else the
one of the config file the file system holds (explicit path, or
`/etc/gosplitsies`) if it sets the key, else the flag default (`""`,
`"stderr"`, `5431`), where the two lowest layers are reached only if the
variable of the parent key (`GSPLIT_LOG`, `GSPLIT_SERVER`) is unset or empty
and the config file does not shadow the key; the typed getters return the
cast of that value, a port given by flag is read back as that port, and the
defaults read back as `""`, `"stderr"` and 5431. -/
theorem resolved_value_layered (p : Process) :
    ((p.args.logFilepath = none → nonEmpty (p.environ "GSPLIT_LOG_FILEPATH") = none →
        nonEmpty (p.environ "GSPLIT_LOG") = none
          ∧ (configFileOf p).shadowed "log.filepath" = false) →
      (initConfig p).viper.Get p.lib p.environ "log.filepath"
          = some (layered (p.args.logFilepath.map Value.string)
              ((nonEmpty (p.environ "GSPLIT_LOG_FILEPATH")).map Value.string)
              ((configFileOf p).search "log.filepath") (.string ""))
        ∧ (initConfig p).viper.GetString p.lib p.environ "log.filepath"
          = p.lib.ToString (some (layered (p.args.logFilepath.map Value.string)
              ((nonEmpty (p.environ "GSPLIT_LOG_FILEPATH")).map Value.string)
              ((configFileOf p).search "log.filepath") (.string ""))))
    ∧ ((p.args.logLocation = none → nonEmpty (p.environ "GSPLIT_LOG_LOCATION") = none →
        nonEmpty (p.environ "GSPLIT_LOG") = none
          ∧ (configFileOf p).shadowed "log.location" = false) →
      (initConfig p).viper.Get p.lib p.environ "log.location"
          = some (layered (p.args.logLocation.map Value.string)
              ((nonEmpty (p.environ "GSPLIT_LOG_LOCATION")).map Value.string)
              ((configFileOf p).search "log.location") (.string "stderr"))
        ∧ (initConfig p).viper.GetString p.lib p.environ "log.location"
          = p.lib.ToString (some (layered (p.args.logLocation.map Value.string)
              ((nonEmpty (p.environ "GSPLIT_LOG_LOCATION")).map Value.string)
              ((configFileOf p).search "log.location") (.string "stderr"))))
    ∧ ((p.args.port = none → nonEmpty (p.environ "GSPLIT_SERVER_PORT") = none →
        nonEmpty (p.environ "GSPLIT_SERVER") = none
          ∧ (configFileOf p).shadowed "server.port" = false) →
      (initConfig p).viper.Get p.lib p.environ "server.port"
          = some (layered (p.args.port.map fun n => Value.string (toString n.val))
              ((nonEmpty (p.environ "GSPLIT_SERVER_PORT")).map Value.string)
              ((configFileOf p).search "server.port") (.string "5431"))
        ∧ (initConfig p).viper.GetUint16 p.lib p.environ "server.port"
          = p.lib.ToUint16 (some (layered (p.args.port.map fun n => Value.string (toString n.val))
              ((nonEmpty (p.environ "GSPLIT_SERVER_PORT")).map Value.string)
              ((configFileOf p).search "server.port") (.string "5431"))))
    ∧ (∀ n, p.args.port = some n →
        (initConfig p).viper.GetUint16 p.lib p.environ "server.port" = n.val)
    ∧ p.lib.ToString (some (.string "")) = ""
    ∧ p.lib.ToString (some (.string "stderr")) = "stderr"
    ∧ p.lib.ToUint16 (some (.string "5431")) = 5431 := by
  refine ⟨?_, ?_, ?_, ?_, rfl, rfl, ToUint16_toString p.lib 5431⟩
  · intro h
    have e := layered_of_find (configFileOf p) "log.filepath" "" p.args.logFilepath
      (p.environ "GSPLIT_LOG_FILEPATH") (p.environ "GSPLIT_LOG") _ (Get_logFilepath p) h
    exact ⟨e, by rw [Viper.GetString, e]⟩
  · intro h
    have e := layered_of_find (configFileOf p) "log.location" "stderr" p.args.logLocation
      (p.environ "GSPLIT_LOG_LOCATION") (p.environ "GSPLIT_LOG") _ (Get_logLocation p) h
    exact ⟨e, by rw [Viper.GetString, e]⟩
  · intro h
    have hget : (initConfig p).viper.Get p.lib p.environ "server.port" =
        match p.args.port.map fun n => toString n.val with
        | some a => some (.string a)
        | none =>
          match nonEmpty (p.environ "GSPLIT_SERVER_PORT") with
          | some e => some (.string e)
          | none =>
            lowerLayers (configFileOf p) "server.port" "5431" (p.environ "GSPLIT_SERVER") := by
      rw [Get_serverPort]; cases p.args.port <;> rfl
    have e := layered_of_find (configFileOf p) "server.port" "5431"
      (p.args.port.map fun n => toString n.val)
      (p.environ "GSPLIT_SERVER_PORT") (p.environ "GSPLIT_SERVER") _ hget
      (by intro hp; exact h (by cases hq : p.args.port <;> simp_all))
    have e' : (initConfig p).viper.Get p.lib p.environ "server.port"
        = some (layered (p.args.port.map fun n => Value.string (toString n.val))
            ((nonEmpty (p.environ "GSPLIT_SERVER_PORT")).map Value.string)
            ((configFileOf p).search "server.port") (.string "5431")) := by
      rw [e, Option.map_map]; rfl
    exact ⟨e', by rw [Viper.GetUint16, e']⟩
  · intro n hn
    rw [Viper.GetUint16, Get_serverPort, hn]
    exact ToUint16_toString p.lib n

theorem resolved_value_layered_witness :
    (layeredRun.args.logFilepath = none
      ∧ layeredRun.environ "GSPLIT_LOG_FILEPATH" = some "/var/log/gsplit.log"
      ∧ (configFileOf layeredRun).search "log.filepath" = some (.string "/tmp/gsplit.log")
      ∧ (initConfig layeredRun).viper.GetString layeredRun.lib layeredRun.environ "log.filepath"
          = "/var/log/gsplit.log")
    ∧ (layeredRun.args.logLocation = some "file"
      ∧ layeredRun.environ "GSPLIT_LOG_LOCATION" = some "stdout"
      ∧ layeredRun.environ "GSPLIT_SERVER" = some "1"
      ∧ (initConfig layeredRun).viper.GetString layeredRun.lib layeredRun.environ "log.location"
          = "file")
    ∧ (explicitFileRun.args.port = none
      ∧ explicitFileRun.environ "GSPLIT_SERVER_PORT" = none
      ∧ nonEmpty (explicitFileRun.environ "GSPLIT_SERVER") = none
      ∧ (configFileOf explicitFileRun).shadowed "server.port" = false
      ∧ (configFileOf explicitFileRun).search "server.port" = some (.string "8080")
      ∧ (initConfig explicitFileRun).viper.GetUint16 explicitFileRun.lib explicitFileRun.environ
          "server.port" = 8080)
    ∧ (portFlagRun.args.port = some 9000
      ∧ portFlagRun.environ "GSPLIT_SERVER_PORT" = some "8081"
      ∧ (initConfig portFlagRun).viper.GetUint16 portFlagRun.lib portFlagRun.environ
          "server.port" = 9000) := by
  have h1 := (resolved_value_layered layeredRun).1 (fun _ h => absurd h (by decide))
  have h2 := (resolved_value_layered layeredRun).2.1 (fun h => absurd h (by decide))
  have h3 := (resolved_value_layered explicitFileRun).2.2.1 (fun _ _ => ⟨by decide, rfl⟩)
  have h4 := (resolved_value_layered portFlagRun).2.2.2.1 9000 rfl
  refine ⟨⟨rfl, by decide, by decide, ?_⟩, ⟨rfl, by decide, by decide, ?_⟩,
    ⟨rfl, by decide, by decide, rfl, by decide, ?_⟩, ⟨rfl, by decide, h4⟩⟩
  · rw [h1.2]; decide
  · rw [h2.2]; decide
  · rw [h3.2]; decide

/-- C1, as stated, fails on the run `shadowedRun`: `GSPLIT_LOG_LOCATION` is
set (to the empty string), yet `log.location` takes the config file's value
`"stdout"`; and no source sets `server.port`, yet it resolves to nil, read as
port 0, instead of the default 5431, because `GSPLIT_SERVER` has a value. -/
theorem resolved_value_layered_counterexample :
    (shadowedRun.args.logLocation = none
      ∧ shadowedRun.environ "GSPLIT_LOG_LOCATION" = some ""
      ∧ (configFileOf shadowedRun).search "log.location" = some (.string "stdout")
      ∧ (initConfig shadowedRun).viper.GetString shadowedRun.lib shadowedRun.environ
          "log.location" = "stdout"
      ∧ (initConfig shadowedRun).viper.GetString shadowedRun.lib shadowedRun.environ
          "log.location"
          ≠ shadowedRun.lib.ToString (some (layered
              (shadowedRun.args.logLocation.map Value.string)
              ((shadowedRun.environ "GSPLIT_LOG_LOCATION").map Value.string)
              ((configFileOf shadowedRun).search "log.location") (.string "stderr"))))
    ∧ (shadowedRun.args.port = none
      ∧ shadowedRun.environ "GSPLIT_SERVER_PORT" = none
      ∧ (configFileOf shadowedRun).search "server.port" = none
      ∧ shadowedRun.environ "GSPLIT_SERVER" = some "1"
      ∧ (initConfig shadowedRun).viper.Get shadowedRun.lib shadowedRun.environ "server.port"
          = none
      ∧ (initConfig shadowedRun).viper.GetUint16 shadowedRun.lib shadowedRun.environ
          "server.port" = 0
      ∧ (initConfig shadowedRun).viper.GetUint16 shadowedRun.lib shadowedRun.environ
          "server.port"
          ≠ shadowedRun.lib.ToUint16 (some (layered
              (shadowedRun.args.port.map fun n => Value.string (toString n.val))
              ((shadowedRun.environ "GSPLIT_SERVER_PORT").map Value.string)
              ((configFileOf shadowedRun).search "server.port") (.string "5431")))) := by
  decide

/-- C2: with a non-empty explicit config-file path, any error of
`ReadInConfig` ends `initConfig` at the read step: the error is written to
stderr, the process exits with code 1, and no logger configuration is made
and no logger built. -/
theorem explicit_config_error_fatal (p : Process) (e : ReadError) (h : p.configFile ≠ "")
    (herr : (configure p).ReadInConfig p.fs = .error e) :
    (initConfig p).outcome = .exit 1
    ∧ (initConfig p).stderr = ["failed to read in config: " ++ e.Error ++ "\n"]
    ∧ (initConfig p).built = false
    ∧ (initConfig p).zapConfig = none := by
  have hnf := explicit_not_ConfigFileNotFound p e h herr
  unfold initConfig
  simp [herr, hnf, h]

theorem explicit_config_error_fatal_witness :
    missingExplicitRun.configFile ≠ ""
    ∧ (configure missingExplicitRun).ReadInConfig missingExplicitRun.fs
        = .error (.other "open /home/gsplit/missing.yaml: no such file or directory")
    ∧ (initConfig missingExplicitRun).outcome = .exit 1
    ∧ (initConfig missingExplicitRun).stderr = ["failed to read in config: " ++
        (ReadError.other "open /home/gsplit/missing.yaml: no such file or directory").Error ++ "\n"]
    ∧ (initConfig missingExplicitRun).built = false
    ∧ (initConfig missingExplicitRun).zapConfig = none :=
  ⟨by decide, rfl,
    explicit_config_error_fatal missingExplicitRun
      (.other "open /home/gsplit/missing.yaml: no such file or directory") (by decide) rfl⟩

/-- C3: without an explicit config-file path and without a config file at the
default location, `ReadInConfig` reports `ConfigFileNotFoundError`, the read
step does not end the run, and `initConfig` goes on with an empty config
layer: `log.location` and `log.filepath` resolve from flag, environment and
default alone, the level is the one of `debug`, and the run ends as the
destination has it, in the exit of a `"file"` destination without a path or
in a logger configuration with the output paths of the destination, handed
to `Build` and `zap.ReplaceGlobals`. -/
theorem absent_default_config_not_fatal (p : Process) (h : p.configFile = "")
    (habsent : p.fs.search ["/etc"] "gosplitsies" = none) :
    let location := withoutFile p.args.logLocation (p.environ "GSPLIT_LOG_LOCATION")
      (p.environ "GSPLIT_LOG") "stderr"
    let filepath := withoutFile p.args.logFilepath (p.environ "GSPLIT_LOG_FILEPATH")
      (p.environ "GSPLIT_LOG") ""
    (configure p).ReadInConfig p.fs
        = .error (.ConfigFileNotFoundError "gosplitsies" ["/etc"])
    ∧ readFatal p = false
    ∧ initConfig p = setupLogger p (configure p)
    ∧ (∀ key, (initConfig p).viper.config.search key = none)
    ∧ (initConfig p).viper.GetString p.lib p.environ "log.location" = location
    ∧ (initConfig p).viper.GetString p.lib p.environ "log.filepath" = filepath
    ∧ (location = "file" ∧ filepath = "" →
        (initConfig p).outcome = .exit 1
        ∧ (initConfig p).stderr = ["no log filepath provided\n"]
        ∧ (initConfig p).built = false)
    ∧ (¬ (location = "file" ∧ filepath = "") →
        ∃ c, (initConfig p).zapConfig = some c
          ∧ c.level = (if p.debug = "true" then Level.Debug else Level.Info)
          ∧ c.outputPaths = sinkPaths location filepath
          ∧ (initConfig p).built = true
          ∧ (initConfig p).outcome
              = .replaceGlobals (if (p.buildError c).isSome then none else some { config := c })
          ∧ (initConfig p).stderr
              = if (p.buildError c).isSome then ["failed to initialize logger\n"] else []) := by
  intro location filepath
  have hread : (configure p).ReadInConfig p.fs
      = .error (.ConfigFileNotFoundError "gosplitsies" ["/etc"]) := by
    rw [configure_eq]
    simp [Viper.ReadInConfig, Viper.getConfigFile, h, habsent]
  have hinit : initConfig p = setupLogger p (configure p) := by
    unfold initConfig
    simp [hread, ReadError.isConfigFileNotFound]
  have hfatal : readFatal p = false := by
    simp [readFatal, hread, ReadError.isConfigFileNotFound]
  have hfile : configFileOf p = ConfigMap.empty := by
    simp [configFileOf, h, habsent]
  have hloc : (initConfig p).viper.GetString p.lib p.environ "log.location" = location := by
    rw [Viper.GetString, Get_logLocation, hfile, lowerLayers_empty]
    simp only [location, withoutFile]
    cases p.args.logLocation <;> cases nonEmpty (p.environ "GSPLIT_LOG_LOCATION") <;>
      cases nonEmpty (p.environ "GSPLIT_LOG") <;> simp [Lib.ToString]
  have hpath : (initConfig p).viper.GetString p.lib p.environ "log.filepath" = filepath := by
    rw [Viper.GetString, Get_logFilepath, hfile, lowerLayers_empty]
    simp only [filepath, withoutFile]
    cases p.args.logFilepath <;> cases nonEmpty (p.environ "GSPLIT_LOG_FILEPATH") <;>
      cases nonEmpty (p.environ "GSPLIT_LOG") <;> simp [Lib.ToString]
  have hres := setupLogger_result p (initConfig p).viper
  simp only at hres
  rw [← initConfig_of_read p hfatal, hloc, hpath] at hres
  refine ⟨hread, hfatal, hinit, ?_, hloc, hpath, hres.1, hres.2⟩
  intro key
  rw [initConfig_config, hfile]
  rfl

theorem absent_default_config_not_fatal_witness :
    envOnlyRun.configFile = ""
    ∧ envOnlyRun.fs.search ["/etc"] "gosplitsies" = none
    ∧ readFatal envOnlyRun = false
    ∧ withoutFile envOnlyRun.args.logLocation (envOnlyRun.environ "GSPLIT_LOG_LOCATION")
        (envOnlyRun.environ "GSPLIT_LOG") "stderr" = "stdout"
    ∧ (∃ c, (initConfig envOnlyRun).zapConfig = some c
        ∧ c.level = Level.Debug
        ∧ c.outputPaths = ["stdout"]
        ∧ (initConfig envOnlyRun).built = true
        ∧ (initConfig envOnlyRun).outcome
            = .replaceGlobals
                (if (envOnlyRun.buildError c).isSome then none else some { config := c })
        ∧ (initConfig envOnlyRun).stderr
            = if (envOnlyRun.buildError c).isSome then ["failed to initialize logger\n"]
              else []) :=
  have h := absent_default_config_not_fatal envOnlyRun rfl rfl
  ⟨rfl, rfl, h.2.1, by decide, h.2.2.2.2.2.2.2 (by decide)⟩

/-- C4: when the resolved `log.location` is `"file"` and the resolved
`log.filepath` is empty, `initConfig` exits with code 1 without building or
installing a logger, and, the configuration having been resolved (the read
step passed), what it reports is "no log filepath provided". -/
theorem file_location_without_filepath_fatal (p : Process)
    (hloc : (initConfig p).viper.GetString p.lib p.environ "log.location" = "file")
    (hpath : (initConfig p).viper.GetString p.lib p.environ "log.filepath" = "") :
    (initConfig p).outcome = .exit 1
    ∧ (initConfig p).built = false
    ∧ (readFatal p = false → (initConfig p).stderr = ["no log filepath provided\n"]) := by
  by_cases hread : readFatal p = false
  · have h := initConfig_of_read p hread
    have hs : setupLogger p (initConfig p).viper =
        { stderr := ["no log filepath provided\n"],
          zapConfig := some (if p.debug = "true" then NewDevelopmentConfig.SetLevel .Debug
            else NewProductionConfig.SetLevel .Info),
          built := false, viper := (initConfig p).viper, outcome := .exit 1 } := by
      unfold setupLogger
      simp [hloc, hpath]
    rw [hs] at h
    rw [h]
    exact ⟨rfl, rfl, fun _ => rfl⟩
  · refine ⟨?_, ?_, fun h => absurd h hread⟩
    all_goals
      unfold readFatal at hread
      unfold initConfig
      simp only
      split
      · rename_i err herr
        rw [herr] at hread
        have hc : ¬ err.isConfigFileNotFound = true ∧ p.configFile ≠ "" := by
          simpa using hread
        simp [hc]
      · rename_i w hw
        rw [hw] at hread
        simp at hread

theorem file_location_without_filepath_fatal_witness :
    (initConfig fileNoPathRun).viper.GetString fileNoPathRun.lib fileNoPathRun.environ
        "log.location" = "file"
    ∧ (initConfig fileNoPathRun).viper.GetString fileNoPathRun.lib fileNoPathRun.environ
        "log.filepath" = ""
    ∧ readFatal fileNoPathRun = false
    ∧ (initConfig fileNoPathRun).outcome = .exit 1
    ∧ (initConfig fileNoPathRun).built = false
    ∧ (initConfig fileNoPathRun).stderr = ["no log filepath provided\n"] :=
  have h := file_location_without_filepath_fatal fileNoPathRun (by decide) (by decide)
  ⟨by decide, by decide, by decide, h.1, h.2.1, h.2.2 (by decide)⟩

/-- C5: once the configuration is resolved, the configuration the logger is
built from has exactly the output paths of the selected destination, whatever
`debug` is: `["stdout"]` for `"stdout"`, `[p]` for `"file"` with a non-empty
`log.filepath` `p`, and the default `["stderr"]` for `"stderr"`; the logger
that gets installed is the one built from that configuration. -/
theorem destination_output_paths (p : Process) (hread : readFatal p = false) :
    let r := initConfig p
    let loc := r.viper.GetString p.lib p.environ "log.location"
    let path := r.viper.GetString p.lib p.environ "log.filepath"
    let paths := if loc = "stdout" then ["stdout"] else if loc = "file" then [path] else ["stderr"]
    (loc = "stdout" ∨ (loc = "file" ∧ path ≠ "") ∨ loc = "stderr") →
      ∃ c, r.zapConfig = some c ∧ c.outputPaths = paths ∧ r.built = true
        ∧ r.outcome = .replaceGlobals (if (p.buildError c).isSome then none else some { config := c })
        := by
  intro r loc path paths hcase
  have h : r = setupLogger p r.viper := initConfig_of_read p hread
  have hc := setupLogger_cases p r.viper
  simp only at hc
  rcases hcase with h1 | ⟨h1, h2⟩ | h1
  · have e := hc.2.1 h1
    have f := buildAndInstall_fields p r.viper
      { (if p.debug = "true" then NewDevelopmentConfig.SetLevel .Debug
          else NewProductionConfig.SetLevel .Info) with outputPaths := ["stdout"] }
    rw [← e, ← h] at f
    exact ⟨_, f.1, by simp [paths, h1], f.2.1, f.2.2.1⟩
  · have e := hc.1 h1 h2
    have f := buildAndInstall_fields p r.viper
      { (if p.debug = "true" then NewDevelopmentConfig.SetLevel .Debug
          else NewProductionConfig.SetLevel .Info) with outputPaths := [path] }
    rw [← e, ← h] at f
    exact ⟨_, f.1, by simp [paths, h1], f.2.1, f.2.2.1⟩
  · have h1' : r.viper.GetString p.lib p.environ "log.location" = "stderr" := h1
    have e := hc.2.2 (by rw [h1']; decide) (by rw [h1']; decide)
    have f := buildAndInstall_fields p r.viper
      (if p.debug = "true" then NewDevelopmentConfig.SetLevel .Debug
          else NewProductionConfig.SetLevel .Info)
    rw [← e, ← h] at f
    exact ⟨_, f.1, by simp [paths, h1, base_outputPaths], f.2.1, f.2.2.1⟩

theorem destination_output_paths_witness :
    readFatal stdoutDebugRun = false
    ∧ (initConfig stdoutDebugRun).viper.GetString stdoutDebugRun.lib stdoutDebugRun.environ "log.location" = "stdout"
    ∧ ∃ c, (initConfig stdoutDebugRun).zapConfig = some c ∧ c.outputPaths = ["stdout"]
        ∧ (initConfig stdoutDebugRun).built = true
        ∧ (initConfig stdoutDebugRun).outcome
            = .replaceGlobals
                (if (stdoutDebugRun.buildError c).isSome then none else some { config := c }) :=
  ⟨by decide, by decide,
    destination_output_paths stdoutDebugRun (by decide) (Or.inl (by decide))⟩

/-- C8: the code has no configuration key that overrides the level, so in
every run that gets past the read step the level of the logger configuration
is Debug when `debug` is `"true"` and Info otherwise, whatever the
destination. -/
theorem starting_level_from_debug (p : Process) (hread : readFatal p = false) :
    ∃ c, (initConfig p).zapConfig = some c
      ∧ c.level = if p.debug = "true" then Level.Debug else Level.Info := by
  rw [initConfig_of_read p hread]
  unfold setupLogger buildAndInstall
  simp only
  repeat' split
  all_goals exact ⟨_, rfl, by simp [ZapConfig.SetLevel, NewDevelopmentConfig, NewProductionConfig, *]⟩

theorem starting_level_from_debug_witness :
    readFatal stdoutDebugRun = false
    ∧ ∃ c, (initConfig stdoutDebugRun).zapConfig = some c
      ∧ c.level = if stdoutDebugRun.debug = "true" then Level.Debug else Level.Info :=
  ⟨by decide, starting_level_from_debug stdoutDebugRun (by decide)⟩

/-- C10: a resolved `log.location` other than `"file"` and `"stdout"`
(`"syslog"` or any other string) does not make `initConfig` fail and leaves
the logger configuration untouched: in two runs with the same `debug` and the
same behaviour of `Build`, one with such a location and one with `"stderr"`,
the logger configuration (output paths `["stderr"]`, level), the lines on
stderr and the way the run ends are the same, and the run does not exit. -/
theorem other_location_like_stderr (p q : Process)
    (hp : readFatal p = false) (hq : readFatal q = false)
    (hdebug : p.debug = q.debug) (hbuild : p.buildError = q.buildError)
    (hfile : (initConfig p).viper.GetString p.lib p.environ "log.location" ≠ "file")
    (hstdout : (initConfig p).viper.GetString p.lib p.environ "log.location" ≠ "stdout")
    (hstderr : (initConfig q).viper.GetString q.lib q.environ "log.location" = "stderr") :
    (initConfig p).zapConfig = (initConfig q).zapConfig
    ∧ (initConfig p).stderr = (initConfig q).stderr
    ∧ (initConfig p).outcome = (initConfig q).outcome
    ∧ (initConfig p).built = (initConfig q).built
    ∧ (∀ code, (initConfig p).outcome ≠ .exit code)
    ∧ ∃ c, (initConfig p).zapConfig = some c ∧ c.outputPaths = ["stderr"]
        ∧ c.level = if p.debug = "true" then Level.Debug else Level.Info := by
  have ep := (setupLogger_cases p (initConfig p).viper).2.2 hfile hstdout
  have eq := (setupLogger_cases q (initConfig q).viper).2.2
    (by rw [hstderr]; decide) (by rw [hstderr]; decide)
  rw [← initConfig_of_read p hp] at ep
  rw [← initConfig_of_read q hq] at eq
  have fp := buildAndInstall_fields p (initConfig p).viper
    (if p.debug = "true" then NewDevelopmentConfig.SetLevel .Debug
      else NewProductionConfig.SetLevel .Info)
  have fq := buildAndInstall_fields q (initConfig q).viper
    (if q.debug = "true" then NewDevelopmentConfig.SetLevel .Debug
      else NewProductionConfig.SetLevel .Info)
  rw [← ep] at fp
  rw [← eq, ← hdebug, ← hbuild] at fq
  refine ⟨?_, ?_, ?_, ?_, ?_, _, fp.1, base_outputPaths _, base_level _⟩
  · rw [fp.1, fq.1]
  · rw [fp.2.2.2, fq.2.2.2]
  · rw [fp.2.2.1, fq.2.2.1]
  · rw [fp.2.1, fq.2.1]
  · intro code h
    rw [fp.2.2.1] at h
    cases h

theorem other_location_like_stderr_witness :
    (initConfig syslogRun).viper.GetString syslogRun.lib syslogRun.environ "log.location" = "syslog"
    ∧ (initConfig plainRun).viper.GetString plainRun.lib plainRun.environ "log.location" = "stderr"
    ∧ (initConfig syslogRun).zapConfig = (initConfig plainRun).zapConfig
    ∧ (initConfig syslogRun).stderr = (initConfig plainRun).stderr
    ∧ (initConfig syslogRun).outcome = (initConfig plainRun).outcome :=
  have h := other_location_like_stderr syslogRun plainRun (by decide) (by decide) rfl rfl
    (by decide) (by decide) (by decide)
  ⟨by decide, by decide, h.1, h.2.1, h.2.2.1⟩

/-- C6 on the run `buildFailsRun`, where `Build` returns an error:
`initConfig` writes "failed to initialize logger" to stderr and does not
exit; it goes on to `zap.ReplaceGlobals` with the nil logger. -/
theorem build_failure_not_fatal :
    readFatal buildFailsRun = false
    ∧ (initConfig buildFailsRun).viper.GetString buildFailsRun.lib buildFailsRun.environ "log.location" = "file"
    ∧ (initConfig buildFailsRun).viper.GetString buildFailsRun.lib buildFailsRun.environ "log.filepath"
        = "/nonexistent/gsplit.log"
    ∧ (∃ c, (initConfig buildFailsRun).zapConfig = some c
        ∧ (buildFailsRun.buildError c).isSome = true)
    ∧ (initConfig buildFailsRun).built = true
    ∧ (initConfig buildFailsRun).stderr = ["failed to initialize logger\n"]
    ∧ (initConfig buildFailsRun).outcome = .replaceGlobals none
    ∧ (initConfig buildFailsRun).outcome ≠ .exit 1 := by
  refine ⟨by decide, by decide, by decide, ⟨_, rfl, by decide⟩, by decide, by decide, by decide,
    by decide⟩

/-- C7: whatever the resolved port and the bind error, `serverRun` asks for
the address `":"` followed by the resolved port and exits with code 1, but
the fatal record names the package variable `serverPort`, which is 0; on the
run `plainRun` the port that cannot be bound is 5431 and the record says
"port 0". -/
theorem bind_failure_names_serverPort :
    (∀ (v : Viper) (lib : Lib) (environ : Environ) (err : String),
      serverRun v lib environ (some err)
        = { listenAddr := ":" ++ toString (v.GetUint16 lib environ "server.port"),
            log := [(Level.Info,
                "Starting server on port " ++ toString (v.GetUint16 lib environ "server.port")),
              (Level.Fatal, "failed to start the server on port 0: " ++ err)],
            exit := some 1 })
    ∧ (initConfig plainRun).viper.GetUint16 plainRun.lib plainRun.environ "server.port" = 5431
    ∧ serverRun (initConfig plainRun).viper plainRun.lib plainRun.environ
        (some "listen tcp :5431: bind: address already in use")
      = { listenAddr := ":5431",
          log := [(Level.Info, "Starting server on port 5431"),
            (Level.Fatal, "failed to start the server on port 0: " ++
              "listen tcp :5431: bind: address already in use")],
          exit := some 1 } := by
  refine ⟨fun v lib environ err => rfl, by decide, by decide⟩

theorem envName_eq (args : CommandLine) (v : Viper) (lib : Lib) (hv : Configured args v)
    (key : String) :
    v.envName (v.mergeWithEnvPrefix lib key)
      = "GSPLIT_" ++ Replacer.Replace [('-', '_'), ('.', '_')] (toUpper lib key) := by
  have hpre : Replacer.Replace [('-', '_'), ('.', '_')] (toUpper lib "gsplit_") = "GSPLIT_" := rfl
  have hne : ("gsplit" : String) ≠ "" := by decide
  simp only [Viper.envName, Viper.mergeWithEnvPrefix, hv.envPrefix, hv.envKeyReplacer, hne,
    ne_eq, not_false_eq_true, if_true]
  have happ : "gsplit" ++ "_" ++ key = "gsplit_" ++ key := by
    rw [String.append_assoc]; rfl
  rw [happ, toUpper_append, Replace_append, hpre]

theorem any_congr_mem {α : Type} (l : List α) (f g : α → Bool) (h : ∀ x ∈ l, f x = g x) :
    l.any f = l.any g := by
  induction l with
  | nil => rfl
  | cons a l ih =>
    simp only [List.any_cons]
    rw [h a (List.mem_cons_self a l), ih (fun x hx => h x (List.mem_cons_of_mem a hx))]

/-- Whatever the other entries of the case tables are, with Go's entries for
the Kelvin sign U+212A (lower case `k`, no upper case of its own) the
variable consulted for the key made of that sign is `GSPLIT_K`, and the key
upper-cased keeps the sign. -/
theorem kelvin_key_name (p : Process) (hlower : p.lib.lowerRune '\u212a' = 'k')
    (hupper : p.lib.upperRune '\u212a' = '\u212a') :
    (initConfig p).viper.envName
        ((initConfig p).viper.mergeWithEnvPrefix p.lib (toLower p.lib "\u212a")) = "GSPLIT_K"
    ∧ "GSPLIT_" ++ toUpper p.lib
        ⟨("\u212a" : String).data.map fun c => if c = '-' ∨ c = '.' then '_' else c⟩
        = "GSPLIT_\u212a" := by
  have h1 : toLower p.lib "\u212a" = "k" := by
    apply String.ext
    show [p.lib.ToLower '\u212a'] = ['k']
    have hn : ¬ ('\u212a' : Char).toNat ≤ 127 := by decide
    simp only [Lib.ToLower, hn, if_false, hlower]
  have h2 : toUpper p.lib
      ⟨("\u212a" : String).data.map fun c => if c = '-' ∨ c = '.' then '_' else c⟩
      = "\u212a" := by
    apply String.ext
    show [p.lib.ToUpper '\u212a'] = ['\u212a']
    have hn : ¬ ('\u212a' : Char).toNat ≤ 127 := by decide
    simp only [Lib.ToUpper, hn, if_false, hupper]
  constructor
  · rw [envName_eq p.args _ p.lib (initConfig_configured p), h1]; rfl
  · rw [h2]; rfl

/-- C9, as the code has it: for every key `k`, the environment variable
`Get` consults for it is named `GSPLIT_` followed by `k` lower-cased, then
upper-cased, with every `-` and `.` then replaced by `_`; for a key of ASCII
characters that is `k` with every `-` and `.` replaced by `_`, upper-cased.
The name holds no `-` and no `.`; `Get` returns the non-empty value of that
variable unless a changed flag or a bound parent key decides first, and reads
the environment at that name and at the names of the parent keys only; the
three bound keys map to `GSPLIT_LOG_FILEPATH`, `GSPLIT_LOG_LOCATION` and
`GSPLIT_SERVER_PORT`. -/
theorem env_key_transliteration (p : Process) (k : String) :
    let v := (initConfig p).viper
    let name := v.envName (v.mergeWithEnvPrefix p.lib (toLower p.lib k))
    name = "GSPLIT_" ++
        Replacer.Replace [('-', '_'), ('.', '_')] (toUpper p.lib (toLower p.lib k))
    ∧ ((∀ c ∈ k.data, c.toNat ≤ 127) →
        name = "GSPLIT_" ++
          toUpper p.lib ⟨k.data.map fun c => if c = '-' ∨ c = '.' then '_' else c⟩)
    ∧ (∀ c ∈ name.data, c ≠ '-' ∧ c ≠ '.')
    ∧ (∀ (environ : Environ) (e : String),
        (v.pflags.lookup (toLower p.lib k)).filter (fun f => f.changed) = none →
        v.isPathShadowedInFlags (splitKey (toLower p.lib k)) = false →
        environ name = some e → e ≠ "" →
        v.Get p.lib environ k = some (.string e))
    ∧ (∀ environ environ' : Environ,
        environ name = environ' name →
        (∀ parent ∈ parentKeys (splitKey (toLower p.lib k)),
          environ (v.envName (v.mergeWithEnvPrefix p.lib parent))
            = environ' (v.envName (v.mergeWithEnvPrefix p.lib parent))) →
        v.Get p.lib environ k = v.Get p.lib environ' k)
    ∧ v.envName (v.mergeWithEnvPrefix p.lib (toLower p.lib "log.filepath"))
        = "GSPLIT_LOG_FILEPATH"
    ∧ v.envName (v.mergeWithEnvPrefix p.lib (toLower p.lib "log.location"))
        = "GSPLIT_LOG_LOCATION"
    ∧ v.envName (v.mergeWithEnvPrefix p.lib (toLower p.lib "server.port"))
        = "GSPLIT_SERVER_PORT" := by
  intro v name
  have hv : Configured p.args v := initConfig_configured p
  have hname : name = "GSPLIT_" ++
      Replacer.Replace [('-', '_'), ('.', '_')] (toUpper p.lib (toLower p.lib k)) :=
    envName_eq p.args v p.lib hv _
  refine ⟨hname, ?_, ?_, ?_, ?_, ?_, ?_, ?_⟩
  · intro hascii
    rw [hname]
    congr 1
    apply String.ext
    simp only [Replacer.Replace, toUpper, toLower, List.map_map]
    apply List.map_congr_left
    intro c hc
    exact replaceChar_upper_lower p.lib c (hascii c hc)
  · intro c hc
    have hc' : c ∈ ("GSPLIT_" ++
        Replacer.Replace [('-', '_'), ('.', '_')] (toUpper p.lib (toLower p.lib k))).data := by
      rw [← hname]; exact hc
    rw [String.data_append, List.mem_append] at hc'
    rcases hc' with h | h
    · have hall : ∀ d ∈ ("GSPLIT_" : String).data, d ≠ '-' ∧ d ≠ '.' := by decide
      exact hall c h
    · simp only [Replacer.Replace, List.mem_map] at h
      obtain ⟨x, _, hx⟩ := h
      subst hx
      exact replaceChar_ne x
  · intro environ e hflag hshadow henv hne
    have henv' : environ (v.envName (v.mergeWithEnvPrefix p.lib (toLower p.lib k))) = some e :=
      henv
    unfold Viper.Get Viper.find
    simp [hflag, hshadow, hv.automaticEnvApplied, Viper.getEnv, henv', hne]
  · intro environ environ' hsame hparents
    have hsame' : environ (v.envName (v.mergeWithEnvPrefix p.lib (toLower p.lib k)))
        = environ' (v.envName (v.mergeWithEnvPrefix p.lib (toLower p.lib k))) := hsame
    have hshadow : v.isPathShadowedInAutoEnv p.lib environ (splitKey (toLower p.lib k))
        = v.isPathShadowedInAutoEnv p.lib environ' (splitKey (toLower p.lib k)) := by
      unfold Viper.isPathShadowedInAutoEnv
      apply any_congr_mem
      intro parent hparent
      simp only [Viper.getEnv, hparents parent hparent]
    unfold Viper.Get Viper.find
    simp only [Viper.getEnv, hsame', hshadow]
  · rw [envName_eq p.args v p.lib hv]; rfl
  · rw [envName_eq p.args v p.lib hv]; rfl
  · rw [envName_eq p.args v p.lib hv]; rfl

theorem env_key_transliteration_witness :
    (∀ c ∈ ("log-level.max" : String).data, c.toNat ≤ 127)
    ∧ (initConfig plainRun).viper.envName
        ((initConfig plainRun).viper.mergeWithEnvPrefix plainRun.lib
          (toLower plainRun.lib "log-level.max")) = "GSPLIT_LOG_LEVEL_MAX"
    ∧ (initConfig plainRun).viper.Get plainRun.lib
        (fun name => if name = "GSPLIT_LOG_LEVEL_MAX" then some "warn" else none)
        "log-level.max" = some (.string "warn") := by
  have h := env_key_transliteration plainRun "log-level.max"
  refine ⟨by decide, ?_, ?_⟩
  · rw [h.2.1 (by decide)]; decide
  · exact h.2.2.2.1 _ "warn" (by decide) (by decide) (by decide) (by decide)

/-- C9, as stated, fails on the key made of the Kelvin sign U+212A: viper
lower-cases the key to `k` before the name is built, so the variable
consulted is `GSPLIT_K`, while the key with `-` and `.` replaced and then
upper-cased keeps the Kelvin sign. -/
theorem env_key_transliteration_counterexample :
    (initConfig plainRun).viper.envName
        ((initConfig plainRun).viper.mergeWithEnvPrefix plainRun.lib
          (toLower plainRun.lib "\u212a")) = "GSPLIT_K"
    ∧ "GSPLIT_" ++ toUpper plainRun.lib
        ⟨("\u212a" : String).data.map fun c => if c = '-' ∨ c = '.' then '_' else c⟩
        = "GSPLIT_\u212a"
    ∧ (initConfig plainRun).viper.envName
        ((initConfig plainRun).viper.mergeWithEnvPrefix plainRun.lib
          (toLower plainRun.lib "\u212a"))
      ≠ "GSPLIT_" ++ toUpper plainRun.lib
        ⟨("\u212a" : String).data.map fun c => if c = '-' ∨ c = '.' then '_' else c⟩
    ∧ (initConfig plainRun).viper.Get plainRun.lib
        (fun name => if name = "GSPLIT_K" then some "x" else none) "\u212a"
        = some (.string "x")
    ∧ (initConfig plainRun).viper.Get plainRun.lib
        (fun name => if name = "GSPLIT_\u212a" then some "x" else none) "\u212a"
        = none := by
  decide

end Gsplit
